import Mathlib

/-
  Verification of the snpplib SNPP client (snpplib.py) against its
  natural-language specification.

  The Python module is shallowly embedded: pure string manipulation
  (quotedata, reply-line parsing) becomes pure Lean functions on
  String and List Char; the stateful socket interaction of the
  command channel is modelled by explicit state passing over a Conn
  record holding the incoming line stream (what successive
  socket-file readline calls will return) and the log of byte
  strings handed to the internal send primitive.  Python exceptions
  become Except errors.
-/

def CRLF : String := "\r\n"

/-- Whitespace characters stripped by Python str.strip and
int parsing: space, tab, newline, carriage return, vertical tab, form feed. -/
def isPySpace (c : Char) : Bool :=
  c = ' ' || c = '\t' || c = '\n' || c = '\r' || c = '\x0b' || c = '\x0c'

/-- Strip leading and trailing Python whitespace from a character list. -/
def stripWs (cs : List Char) : List Char :=
  ((cs.dropWhile isPySpace).reverse.dropWhile isPySpace).reverse

/-- Python string.strip(s): remove leading and trailing whitespace. -/
def pyStrip (s : String) : String :=
  String.mk (stripWs s.toList)

/-- Numeric value of a digit string (most significant digit first). -/
def digitsVal (cs : List Char) : Nat :=
  cs.foldl (fun a c => a * 10 + (c.toNat - 48)) 0

/-- Python string.atoi / int() on a str: strip whitespace at both ends,
accept an optional sign followed by a nonempty run of decimal digits,
otherwise fail. -/
def pyAtoi (s : String) : Option Int :=
  match stripWs s.toList with
  | [] => none
  | c :: cs =>
    if c = '+' then
      if !cs.isEmpty && cs.all Char.isDigit then some (Int.ofNat (digitsVal cs)) else none
    else if c = '-' then
      if !cs.isEmpty && cs.all Char.isDigit then some (-(Int.ofNat (digitsVal cs))) else none
    else
      if (c :: cs).all Char.isDigit then some (Int.ofNat (digitsVal (c :: cs))) else none

/-- Body of a reply line: everything from the fifth character on,
whitespace-trimmed; Python: string.strip(line[4:]). -/
def lineBody (l : String) : String := pyStrip (l.drop 4)

/-- Continuation test on a reply line; Python: line[3:4] == "-". -/
def isCont (l : String) : Bool := (l.drop 3).take 1 = "-"

/-- The candidate status code of a reply line parses, and consists of
exactly three decimal digits. -/
def has3DigitCode (l : String) : Bool :=
  (l.take 3).toList.length = 3 && (l.take 3).toList.all Char.isDigit

/-- The numeric status code of a reply line, with the parser sentinel -1
when the first three characters do not parse as an integer. -/
def codeOf (l : String) : Int := (pyAtoi (l.take 3)).getD (-1)

/-- Python string.join(parts, newline). -/
def joinNL (parts : List String) : String := String.intercalate "\n" parts

/-- Errors raised by the module: the SNPPException family plus the Python
UnboundLocalError that SNPP.help runs into when the initial reply code
is not 214. -/
inductive SnppError where
  | serverDisconnected (reason : String)
  | connectError (code : Int) (msg : String)
  | responseError (code : Int) (msg : String)
  | unboundLocal (name : String)
deriving DecidableEq, Repr

/-- The loop of SNPP.getreply, embedded over the list of lines the
buffered socket reader will hand back (an empty list, or an explicit
empty-string element, models end of file).  resp is the accumulator of
stripped line bodies.  Returns the reply outcome together with the lines
left unread.  Faithful to the source: the body is appended before the
code is parsed; a parse failure yields code -1 and stops; a fourth
character other than a dash stops. -/
def getreplyAux : List String → List String → (Except SnppError (Int × String)) × List String
  | [], _resp => (Except.error (SnppError.serverDisconnected "Connection unexpectedly closed"), [])
  | line :: rest, resp =>
    if line = "" then
      (Except.error (SnppError.serverDisconnected "Connection unexpectedly closed"), rest)
    else
      let resp2 := resp ++ [lineBody line]
      match pyAtoi (line.take 3) with
      | none => (Except.ok (-1, joinNL resp2), rest)
      | some n =>
        if isCont line then getreplyAux rest resp2
        else (Except.ok (n, joinNL resp2), rest)

/-- SNPP.getreply: aggregate one (possibly multi-line) server reply from
the incoming line stream. -/
def getreply (lines : List String) : (Except SnppError (Int × String)) × List String :=
  getreplyAux lines []

deriving instance DecidableEq for Except

/-- State of an established command channel: the lines the buffered
socket reader will return, and the log of byte strings handed to the
send primitive (oldest first).  This models the connection on the
healthy-socket path; the socket failure and reconnect behaviour of the
send primitive itself is modelled separately below by sendRaw. -/
structure Conn where
  instream : List String
  sent : List String
deriving DecidableEq, Repr

/-- A send on a healthy socket: the bytes are appended to the wire log. -/
def send (s : String) (conn : Conn) : Conn :=
  { conn with sent := conn.sent ++ [s] }

/-- SNPP.putcmd: send one command line, formatted as cmd, a space, the
arguments (possibly empty) and CRLF. -/
def putcmd (cmd args : String) (conn : Conn) : Conn :=
  send (cmd ++ " " ++ args ++ CRLF) conn

/-- SNPP.docmd: send a command, aggregate the reply, and classify the
reply code: 421 raises SNPPConnectError, codes in [500, 800) raise
SNPPResponseError, everything else is returned as a pair. -/
def docmd (cmd args : String) (conn : Conn) : (Except SnppError (Int × String)) × Conn :=
  let conn1 := putcmd cmd args conn
  match getreplyAux conn1.instream [] with
  | (Except.error e, rest) => (Except.error e, { conn1 with instream := rest })
  | (Except.ok (code, msg), rest) =>
    let conn2 : Conn := { conn1 with instream := rest }
    if code = 421 then (Except.error (SnppError.connectError code msg), conn2)
    else if 500 ≤ code ∧ code < 800 then (Except.error (SnppError.responseError code msg), conn2)
    else (Except.ok (code, msg), conn2)

/-- Newline normalization step of SNPP.quotedata: the regex replacing
each CRLF pair, each bare newline, and each carriage return not
followed by a newline, with CRLF, scanning left to right. -/
def normalizeNewlines : List Char → List Char
  | [] => []
  | '\r' :: '\n' :: rest => '\r' :: '\n' :: normalizeNewlines rest
  | '\r' :: rest => '\r' :: '\n' :: normalizeNewlines rest
  | '\n' :: rest => '\r' :: '\n' :: normalizeNewlines rest
  | c :: rest => c :: normalizeNewlines rest

/-- The payload uses only CRLF line endings: every carriage return is
immediately followed by a newline and every newline immediately
preceded by a carriage return. -/
def crlfOnly : List Char → Bool
  | [] => true
  | '\r' :: '\n' :: rest => crlfOnly rest
  | '\r' :: _ => false
  | '\n' :: _ => false
  | _ :: rest => crlfOnly rest

/-- Dot-stuffing step of SNPP.quotedata: the multiline regex doubling a
period at the start of the string or right after a newline.  The flag
records whether the scanner stands at a line start. -/
def dotStuff : Bool → List Char → List Char
  | _, [] => []
  | atStart, c :: rest =>
    if atStart && c = '.' then '.' :: '.' :: dotStuff false rest
    else if c = '\n' then '\n' :: dotStuff true rest
    else c :: dotStuff false rest

/-- String-level newline normalization (the inner substitution of
SNPP.quotedata). -/
def normalizeString (s : String) : String :=
  String.mk (normalizeNewlines s.toList)

/-- SNPP.quotedata: normalize line endings to CRLF, then double every
leading period. -/
def quotedata (payload : String) : String :=
  String.mk (dotStuff true (normalizeNewlines payload.toList))

/-- The while loop of SNPP.help, entered with the code and text of the
reply just read and the accumulated help text: while the code is 214,
the text is joined onto the accumulator with a newline separator and
another reply is aggregated; the first non-214 code is returned with
the accumulator. -/
def helpLoop (code : Int) (msg helpmsg : String) (stream : List String) :
    (Except SnppError (Int × String)) × List String :=
  if code = 214 then
    match h : getreplyAux stream [] with
    | (Except.error e, rest) => (Except.error e, rest)
    | (Except.ok (c, m), rest) => helpLoop c m (joinNL [helpmsg, msg]) rest
  else (Except.ok (code, helpmsg), stream)
termination_by stream.length
decreasing_by
  have key : ∀ (lines resp : List String) (r : Int × String) (left : List String),
      getreplyAux lines resp = (Except.ok r, left) → left.length < lines.length := by
    intro lines
    induction lines with
    | nil =>
      intro resp r left hk
      simp [getreplyAux] at hk
    | cons l t ih =>
      intro resp r left hk
      unfold getreplyAux at hk
      by_cases hl : l = ""
      · rw [if_pos hl] at hk
        simp at hk
      · rw [if_neg hl] at hk
        cases hatoi : pyAtoi (l.take 3) with
        | none =>
          rw [hatoi] at hk
          simp at hk
          simp [hk.2]
        | some n =>
          rw [hatoi] at hk
          dsimp only at hk
          by_cases hcont : isCont l
          · rw [if_pos hcont] at hk
            have := ih _ _ _ hk
            simp
            omega
          · rw [if_neg hcont] at hk
            simp at hk
            simp [hk.2]
  exact key stream [] _ _ h

/-- SNPP.help: issue HELP; the accumulator helpmsg is initialized to the
empty string only when the first reply code is 214, in which case the
214 loop runs; otherwise the source returns the never-assigned local
helpmsg, which is a Python UnboundLocalError. -/
def help (conn : Conn) : (Except SnppError (Int × String)) × Conn :=
  match docmd "HELP" "" conn with
  | (Except.error e, c) => (Except.error e, c)
  | (Except.ok (code, msg), c) =>
    if code = 214 then
      let r := helpLoop code msg "" c.instream
      (r.1, { c with instream := r.2 })
    else (Except.error (SnppError.unboundLocal "helpmsg"), c)

/-- SNPP.data: issue the bare DATA command; on a 354 reply send the
quoted payload and then the end-of-data sentinel CRLF period CRLF, and
read the final reply raw (no classification); on any other code return
that reply without sending anything further. -/
def data (payload : String) (conn : Conn) : (Except SnppError (Int × String)) × Conn :=
  match docmd "DATA" "" conn with
  | (Except.error e, c) => (Except.error e, c)
  | (Except.ok (code, msg), c) =>
    if code = 354 then
      let c2 := send (CRLF ++ "." ++ CRLF) (send (quotedata payload) c)
      match getreplyAux c2.instream [] with
      | (Except.error e, rest) => (Except.error e, { c2 with instream := rest })
      | (Except.ok (code2, msg2), rest) => (Except.ok (code2, msg2), { c2 with instream := rest })
    else (Except.ok (code, msg), c)

/-- Socket-level state for the SNPP.send primitive.  The oracle fields
fix what the operating system would do: whether a send on the current
socket raises a socket error, whether a connect attempt fails at the
socket layer, and which greeting reply (if any; none models an
immediately closed stream) a fresh connection would produce.
connectAttempts logs every socket connect call with the host and port
used. -/
structure SendSocket where
  host : String
  port : Int
  sockOpen : Bool
  sendFails : Bool
  connectFails : Bool
  greeting : Option (Int × String)
  connectAttempts : List (String × Int)
  written : List String
deriving DecidableEq, Repr

/-- Exceptions as seen at the try-except boundary inside SNPP.send:
a socket.error is distinguished from the SNPPException family because
only the former is caught there. -/
inductive PyExc where
  | socketError
  | snpp (e : SnppError)
deriving DecidableEq, Repr

/-- SNPP.connect at the socket level: create and connect a socket
(recording the attempt with the stored host and port), read the
greeting reply, and raise SNPPConnectError when its code is not 220. -/
def connectModel (st : SendSocket) : (Except PyExc Unit) × SendSocket :=
  let st1 := { st with connectAttempts := st.connectAttempts ++ [(st.host, st.port)] }
  if st.connectFails then (Except.error PyExc.socketError, st1)
  else
    match st.greeting with
    | none =>
      (Except.error (PyExc.snpp (SnppError.serverDisconnected "Connection unexpectedly closed")),
        { st1 with sockOpen := true })
    | some (code, msg) =>
      if code ≠ 220 then
        (Except.error (PyExc.snpp (SnppError.connectError code msg)), { st1 with sockOpen := true })
      else (Except.ok (), { st1 with sockOpen := true })

/-- SNPP.send: with an open socket, a failing send raises
SNPPServerDisconnected with reason Server not connected and no
reconnect happens; with no socket, exactly one connect with the stored
host and port is attempted before sending, a socket error from either
step raises SNPPServerDisconnected with reason Problems with socket,
and a non-socket error from connect propagates. -/
def sendRaw (s : String) (st : SendSocket) : (Except SnppError Unit) × SendSocket :=
  if st.sockOpen then
    if st.sendFails then (Except.error (SnppError.serverDisconnected "Server not connected"), st)
    else (Except.ok (), { st with written := st.written ++ [s] })
  else
    match connectModel st with
    | (Except.error PyExc.socketError, st1) =>
      (Except.error (SnppError.serverDisconnected "Problems with socket"), st1)
    | (Except.error (PyExc.snpp e), st1) => (Except.error e, st1)
    | (Except.ok _, st1) =>
      if st.sendFails then (Except.error (SnppError.serverDisconnected "Problems with socket"), st1)
      else (Except.ok (), { st1 with written := st1.written ++ [s] })

/-
  Helper lemmas.
-/

/-- A decimal digit is not Python whitespace. -/
theorem digit_not_space (c : Char) (h : c.isDigit = true) : isPySpace c = false := by
  unfold isPySpace
  by_cases h1 : c = ' '
  · exact absurd h (by rw [h1]; decide)
  by_cases h2 : c = '\t'
  · exact absurd h (by rw [h2]; decide)
  by_cases h3 : c = '\n'
  · exact absurd h (by rw [h3]; decide)
  by_cases h4 : c = '\r'
  · exact absurd h (by rw [h4]; decide)
  by_cases h5 : c = '\x0b'
  · exact absurd h (by rw [h5]; decide)
  by_cases h6 : c = '\x0c'
  · exact absurd h (by rw [h6]; decide)
  simp [h1, h2, h3, h4, h5, h6]

theorem digit_ne_plus (c : Char) (h : c.isDigit = true) : ¬(c = '+') := by
  intro he
  exact absurd h (by rw [he]; decide)

theorem digit_ne_minus (c : Char) (h : c.isDigit = true) : ¬(c = '-') := by
  intro he
  exact absurd h (by rw [he]; decide)

theorem dropWhile_space_digits (cs : List Char) (h : ∀ c ∈ cs, c.isDigit = true) :
    cs.dropWhile isPySpace = cs := by
  cases cs with
  | nil => rfl
  | cons a t =>
    rw [List.dropWhile_cons, if_neg]
    rw [digit_not_space a (h a (by simp))]
    simp

theorem stripWs_digits (cs : List Char) (h : ∀ c ∈ cs, c.isDigit = true) : stripWs cs = cs := by
  unfold stripWs
  rw [dropWhile_space_digits cs h,
    dropWhile_space_digits cs.reverse (by intro c hc; exact h c (List.mem_reverse.mp hc)),
    List.reverse_reverse]

/-- Python int parsing succeeds on a nonempty all-digit string. -/
theorem pyAtoi_of_digits (s : String) (hne : s.toList ≠ []) (h : ∀ c ∈ s.toList, c.isDigit = true) :
    pyAtoi s = some (Int.ofNat (digitsVal s.toList)) := by
  unfold pyAtoi
  rw [stripWs_digits s.toList h]
  cases hs : s.toList with
  | nil => exact absurd hs hne
  | cons c cs =>
    rw [hs] at h
    dsimp only
    rw [if_neg (digit_ne_plus c (h c (by simp))), if_neg (digit_ne_minus c (h c (by simp)))]
    rw [if_pos (by rw [List.all_eq_true]; intro x hx; exact h x hx)]

/-- On a line whose first three characters are decimal digits, the
candidate status code parses, to the value codeOf gives. -/
theorem codeOf_parses (l : String) (h : has3DigitCode l = true) :
    pyAtoi (l.take 3) = some (codeOf l) := by
  unfold has3DigitCode at h
  simp only [Bool.and_eq_true, decide_eq_true_eq, List.all_eq_true] at h
  have hp := pyAtoi_of_digits (l.take 3) (by intro hc; rw [hc] at h; simp at h) h.2
  unfold codeOf
  rw [hp]
  rfl

/-- Behaviour of the reply aggregation loop on a wellformed reply:
any number of continuation lines with parsing codes, followed by one
terminal line, followed by arbitrary further stream content.  The
aggregated text joins all stripped bodies onto the accumulator, the
returned code is the code of the terminal (last) line, and the rest of
the stream is left unread. -/
theorem getreplyAux_wellformed (init : List String) (last : String) (extra resp : List String)
    (hinit : ∀ l ∈ init, l ≠ "" ∧ has3DigitCode l = true ∧ isCont l = true)
    (hlast1 : last ≠ "") (hlast2 : has3DigitCode last = true) (hlast3 : isCont last = false) :
    getreplyAux (init ++ last :: extra) resp =
      (Except.ok (codeOf last, joinNL (resp ++ (init ++ [last]).map lineBody)), extra) := by
  induction init generalizing resp with
  | nil =>
    simp only [List.nil_append, List.map_cons, List.map_nil]
    unfold getreplyAux
    rw [if_neg hlast1, codeOf_parses last hlast2]
    dsimp only
    rw [if_neg (by rw [hlast3]; simp)]
  | cons l t ih =>
    obtain ⟨hl1, hl2, hl3⟩ := hinit l (by simp)
    simp only [List.cons_append]
    unfold getreplyAux
    rw [if_neg hl1, codeOf_parses l hl2]
    dsimp only
    rw [if_pos hl3]
    rw [ih (resp ++ [lineBody l]) (fun x hx => hinit x (List.mem_cons_of_mem l hx))]
    simp [List.append_assoc]

/-- Unrolling of the HELP loop at a non-214 code. -/
theorem helpLoop_stop (code : Int) (msg helpmsg : String) (stream : List String)
    (h : code ≠ 214) : helpLoop code msg helpmsg stream = (Except.ok (code, helpmsg), stream) := by
  rw [helpLoop.eq_def, if_neg h]

/-- Unrolling of the HELP loop at code 214: join the text onto the
accumulator and aggregate the next reply. -/
theorem helpLoop_step (msg helpmsg : String) (stream : List String) (c2 : Int) (m2 : String)
    (rest : List String) (h : getreplyAux stream [] = (Except.ok (c2, m2), rest)) :
    helpLoop 214 msg helpmsg stream = helpLoop c2 m2 (joinNL [helpmsg, msg]) rest := by
  rw [helpLoop.eq_def, if_pos rfl, h]

/-
  Claim theorems.
-/

/-- C1: for every command sent through docmd, once the reply is
aggregated, code 421 raises SNPPConnectError carrying the code and
text, any code in the range 500 to 799 raises SNPPResponseError
carrying the code and text, and every other code is returned as the
pair of code and text. -/
theorem docmd_classifies_reply_codes (cmd args : String) (conn : Conn) (code : Int)
    (msg : String) (rest : List String)
    (h : getreplyAux conn.instream [] = (Except.ok (code, msg), rest)) :
    (code = 421 →
      docmd cmd args conn =
        (Except.error (SnppError.connectError code msg),
          Conn.mk rest (conn.sent ++ [cmd ++ " " ++ args ++ CRLF]))) ∧
    (500 ≤ code ∧ code ≤ 799 →
      docmd cmd args conn =
        (Except.error (SnppError.responseError code msg),
          Conn.mk rest (conn.sent ++ [cmd ++ " " ++ args ++ CRLF]))) ∧
    (code ≠ 421 → ¬(500 ≤ code ∧ code ≤ 799) →
      docmd cmd args conn =
        (Except.ok (code, msg), Conn.mk rest (conn.sent ++ [cmd ++ " " ++ args ++ CRLF]))) := by
  unfold docmd putcmd send
  dsimp only
  rw [h]
  dsimp only
  refine ⟨?_, ?_, ?_⟩
  · intro h421
    rw [if_pos h421]
  · intro hr
    rw [if_neg (by omega), if_pos (by omega)]
  · intro h421 hr
    rw [if_neg h421, if_neg (by omega)]

theorem docmd_classifies_reply_codes_witness :
    docmd "MESS" "hi" (Conn.mk ["555 err\r\n"] []) =
      (Except.error (SnppError.responseError 555 "err"), Conn.mk [] ["MESS hi\r\n"]) :=
  (docmd_classifies_reply_codes "MESS" "hi" (Conn.mk ["555 err\r\n"] []) 555 "err" [] rfl).2.1
    (by norm_num)

/-- C6: a received line whose first three characters do not parse as a
decimal integer makes the reply terminal with code -1: the body of the
malformed line is still appended to the text, and the remaining stream
is left unread, whatever the fourth character of the malformed line. -/
theorem getreply_malformed_code_terminal (line : String) (rest resp : List String)
    (hne : line ≠ "") (hbad : pyAtoi (line.take 3) = none) :
    getreplyAux (line :: rest) resp =
      (Except.ok (-1, joinNL (resp ++ [lineBody line])), rest) := by
  unfold getreplyAux
  rw [if_neg hne, hbad]

theorem getreply_malformed_code_terminal_witness :
    getreply ["abc-xyz\r\n", "999 z\r\n"] = (Except.ok (-1, "xyz"), ["999 z\r\n"]) :=
  getreply_malformed_code_terminal "abc-xyz\r\n" ["999 z\r\n"] [] (by decide) rfl

/-- C4 counterexample: a wellformed two-line reply whose continuation
line carries code 300 and whose terminal line carries code 400 is
aggregated with code 400, the terminal line's prefix, not 300, the
first line's prefix as the claim states. -/
theorem getreply_wellformed_cex :
    getreply ["300-x\r\n", "400 y\r\n"] = (Except.ok (400, "x\ny"), []) ∧ (400 : Int) ≠ 300 :=
  ⟨rfl, by decide⟩

/-- C4 (amended): for every wellformed reply, zero or more continuation
lines followed by one terminal line, each starting with a valid
three-digit code, the parser returns the newline-join of the stripped
line bodies and the code of the terminal (last) line, equal to the
first line's code whenever all lines carry the same code, and leaves
the remaining stream unread. -/
theorem getreply_wellformed (init : List String) (last : String) (extra : List String)
    (hinit : ∀ l ∈ init, l ≠ "" ∧ has3DigitCode l = true ∧ isCont l = true)
    (hlast1 : last ≠ "") (hlast2 : has3DigitCode last = true) (hlast3 : isCont last = false) :
    getreply (init ++ last :: extra) =
      (Except.ok (codeOf last, joinNL ((init ++ [last]).map lineBody)), extra) := by
  unfold getreply
  have hmain := getreplyAux_wellformed init last extra [] hinit hlast1 hlast2 hlast3
  simpa using hmain

theorem getreply_wellformed_witness :
    getreply ["214-a\r\n", "214 b\r\n"] = (Except.ok (214, "a\nb"), []) :=
  getreply_wellformed ["214-a\r\n"] "214 b\r\n" [] (by decide) (by decide) (by decide) (by decide)

/-- C5 counterexample: on the reply 214-a CRLF 250 b CRLF the parser
returns code 250, the terminal line's prefix, not the first line's
prefix 214 as the claim states. -/
theorem getreply_code_cex :
    getreply ["214-a\r\n", "250 b\r\n"] = (Except.ok (250, "a\nb"), []) ∧ (250 : Int) ≠ 214 :=
  ⟨rfl, by decide⟩

/-- C5 (amended): in a wellformed multi-line reply whose first line
carries a parseable code different from the terminal line's code, the
parser returns the terminal (last) line's code, and does not return
the first line's code. -/
theorem getreply_code_from_last_line (l0 : String) (mid : List String) (last : String)
    (extra : List String)
    (h0 : l0 ≠ "" ∧ has3DigitCode l0 = true ∧ isCont l0 = true)
    (hmid : ∀ l ∈ mid, l ≠ "" ∧ has3DigitCode l = true ∧ isCont l = true)
    (hlast1 : last ≠ "") (hlast2 : has3DigitCode last = true) (hlast3 : isCont last = false)
    (hne : codeOf last ≠ codeOf l0) :
    (getreply (l0 :: (mid ++ last :: extra))).1 =
      Except.ok (codeOf last, joinNL (((l0 :: mid) ++ [last]).map lineBody)) ∧
    ∀ t, (getreply (l0 :: (mid ++ last :: extra))).1 ≠ Except.ok (codeOf l0, t) := by
  have hmain := getreplyAux_wellformed (l0 :: mid) last extra []
    (by
      intro l hl
      rcases List.mem_cons.mp hl with hl | hl
      · rw [hl]; exact h0
      · exact hmid l hl)
    hlast1 hlast2 hlast3
  have hfst : (getreply (l0 :: (mid ++ last :: extra))).1 =
      Except.ok (codeOf last, joinNL (((l0 :: mid) ++ [last]).map lineBody)) := by
    unfold getreply
    rw [show l0 :: (mid ++ last :: extra) = (l0 :: mid) ++ last :: extra from rfl, hmain]
    simp
  refine ⟨hfst, ?_⟩
  intro t hcontra
  rw [hfst] at hcontra
  simp only [Except.ok.injEq, Prod.mk.injEq] at hcontra
  exact hne hcontra.1

theorem getreply_code_from_last_line_witness :
    (getreply ["214-a\r\n", "250 b\r\n"]).1 = Except.ok (250, "a\nb") ∧
    ∀ t, (getreply ["214-a\r\n", "250 b\r\n"]).1 ≠ Except.ok (214, t) :=
  getreply_code_from_last_line "214-a\r\n" [] "250 b\r\n" [] (by decide) (by decide) (by decide)
    (by decide) (by decide) (by decide)

theorem crlfOnly_normalize (cs : List Char) (h : crlfOnly cs = true) :
    normalizeNewlines cs = cs := by
  induction cs using crlfOnly.induct with
  | case1 => rfl
  | case2 rest ih =>
    simp only [crlfOnly] at h
    simp [normalizeNewlines, ih h]
  | case3 rest h1 =>
    simp [crlfOnly] at h
  | case4 rest =>
    simp [crlfOnly] at h
  | case5 c rest h1 h2 h3 ih =>
    simp only [crlfOnly] at h
    simp [normalizeNewlines, ih h]

/-- C9: the line-ending-normalization step of the quoter maps every
payload that already uses CRLF line endings, with no bare newline and
no bare carriage return, to itself. -/
theorem quoter_normalization_fixed (s : String) (h : crlfOnly s.toList = true) :
    normalizeString s = s := by
  unfold normalizeString
  rw [crlfOnly_normalize s.toList h]
  cases s
  rfl

theorem quoter_normalization_fixed_witness :
    crlfOnly "ab\r\ncd\r\n..e".toList = true ∧ normalizeString "ab\r\ncd\r\n..e" = "ab\r\ncd\r\n..e" :=
  ⟨by decide, quoter_normalization_fixed "ab\r\ncd\r\n..e" (by decide)⟩

/-- Evaluation of docmd once the aggregated reply is known. -/
theorem docmd_eval (cmd args : String) (conn : Conn) (code : Int) (msg : String)
    (rest : List String)
    (h : getreplyAux conn.instream [] = (Except.ok (code, msg), rest)) :
    docmd cmd args conn =
      (if code = 421 then Except.error (SnppError.connectError code msg)
       else if 500 ≤ code ∧ code < 800 then Except.error (SnppError.responseError code msg)
       else Except.ok (code, msg),
       Conn.mk rest (conn.sent ++ [cmd ++ " " ++ args ++ CRLF])) := by
  unfold docmd putcmd send
  dsimp only
  rw [h]
  dsimp only
  by_cases h421 : code = 421
  · rw [if_pos h421, if_pos h421]
  · rw [if_neg h421, if_neg h421]
    by_cases hr : 500 ≤ code ∧ code < 800
    · rw [if_pos hr, if_pos hr]
    · rw [if_neg hr, if_neg hr]

/-- C10: once DATA is accepted with code 354 and the payload and
sentinel have been sent, the final reply is read raw and returned as a
pair with no error classification, whatever its code, including 421
and the 500 to 799 band. -/
theorem data_final_reply_unclassified (payload : String) (conn : Conn) (msg : String)
    (rest : List String) (code2 : Int) (msg2 : String) (rest2 : List String)
    (h1 : getreplyAux conn.instream [] = (Except.ok (354, msg), rest))
    (h2 : getreplyAux rest [] = (Except.ok (code2, msg2), rest2)) :
    data payload conn =
      (Except.ok (code2, msg2),
        Conn.mk rest2 (conn.sent ++ ["DATA " ++ CRLF, quotedata payload, CRLF ++ "." ++ CRLF])) := by
  have hdo := docmd_eval "DATA" "" conn 354 msg rest h1
  rw [if_neg (by norm_num), if_neg (by norm_num)] at hdo
  unfold data
  rw [hdo]
  dsimp only
  rw [if_pos rfl]
  dsimp only [send]
  rw [h2]
  simp

theorem data_final_reply_unclassified_witness :
    data "hi" (Conn.mk ["354 go\r\n", "421 bye\r\n"] []) =
      (Except.ok (421, "bye"), Conn.mk [] ["DATA \r\n", "hi", "\r\n.\r\n"]) :=
  data_final_reply_unclassified "hi" (Conn.mk ["354 go\r\n", "421 bye\r\n"] []) "go"
    ["421 bye\r\n"] 421 "bye" [] rfl rfl

/-- C7 counterexample: when the server answers the bare DATA command
with code 421, the data call does not return that reply as a pair; it
raises SNPPConnectError instead (though, as the claim also states, no
payload bytes are sent: only the command line is on the wire). -/
theorem data_non354_cex :
    (data "Hello" (Conn.mk ["421 bye\r\n"] [])).1 = Except.error (SnppError.connectError 421 "bye") ∧
    (Except.error (SnppError.connectError 421 "bye") : Except SnppError (Int × String)) ≠
      Except.ok (421, "bye") ∧
    (data "Hello" (Conn.mk ["421 bye\r\n"] [])).2.sent = ["DATA \r\n"] :=
  ⟨rfl, by decide, rfl⟩

/-- C7 (amended): when the reply to the bare DATA command carries a
code other than 354, no payload bytes and no end-of-data sentinel are
written, only the DATA command line; the reply pair is returned
directly when its code is outside the error bands, while a 421 code
raises SNPPConnectError and a code in 500 to 799 raises
SNPPResponseError, still with nothing but the command line sent. -/
theorem data_non354_no_payload (payload : String) (conn : Conn) (code : Int) (msg : String)
    (rest : List String)
    (h : getreplyAux conn.instream [] = (Except.ok (code, msg), rest))
    (h354 : code ≠ 354) :
    (data payload conn).2.sent = conn.sent ++ ["DATA " ++ CRLF] ∧
    (code ≠ 421 → ¬(500 ≤ code ∧ code ≤ 799) →
      data payload conn = (Except.ok (code, msg), Conn.mk rest (conn.sent ++ ["DATA " ++ CRLF]))) ∧
    (code = 421 → (data payload conn).1 = Except.error (SnppError.connectError code msg)) ∧
    (500 ≤ code ∧ code ≤ 799 → (data payload conn).1 = Except.error (SnppError.responseError code msg)) := by
  have hdo := docmd_eval "DATA" "" conn code msg rest h
  by_cases h421 : code = 421
  · rw [if_pos h421] at hdo
    unfold data
    rw [hdo]
    dsimp only
    refine ⟨rfl, ?_, ?_, ?_⟩
    · intro hc _
      exact absurd h421 hc
    · intro _
      rfl
    · intro hr
      omega
  · rw [if_neg h421] at hdo
    by_cases hr : 500 ≤ code ∧ code < 800
    · rw [if_pos hr] at hdo
      unfold data
      rw [hdo]
      dsimp only
      refine ⟨rfl, ?_, ?_, ?_⟩
      · intro _ hc
        exact absurd (by omega) hc
      · intro hc
        exact absurd hc h421
      · intro _
        rfl
    · rw [if_neg hr] at hdo
      unfold data
      rw [hdo]
      dsimp only
      rw [if_neg h354]
      refine ⟨rfl, ?_, ?_, ?_⟩
      · intro _ _
        rfl
      · intro hc
        exact absurd hc h421
      · intro hc
        exact absurd (by omega : 500 ≤ code ∧ code < 800) hr

theorem data_non354_no_payload_witness :
    (data "x" (Conn.mk ["503 bad\r\n"] [])).2.sent = ["DATA \r\n"] ∧
    (data "x" (Conn.mk ["503 bad\r\n"] [])).1 = Except.error (SnppError.responseError 503 "bad") := by
  have hmain := data_non354_no_payload "x" (Conn.mk ["503 bad\r\n"] []) 503 "bad" [] rfl (by norm_num)
  exact ⟨hmain.1, hmain.2.2.2 (by norm_num)⟩

/-- C2 counterexample: with the server accepting DATA with 354 and the
payload Hello newline period World, the bytes written for the payload
phase are not the claimed string with a blank line before the
sentinel. -/
theorem data_wire_bytes_cex :
    String.join ((data "Hello\n.World" (Conn.mk ["354 go ahead\r\n", "250 ok\r\n"] [])).2.sent.drop 1) ≠
      "Hello\r\n..World\r\n\r\n.\r\n" := by
  decide

/-- C2 (amended): with the server accepting DATA with 354 and the
payload Hello newline period World, the wire sees exactly the DATA
command line, then the quoted payload with the leading period doubled,
then the sentinel whose leading CRLF terminates the final payload
line: the payload-phase bytes are Hello CRLF dot dot World CRLF dot
CRLF, with no extra blank line. -/
theorem data_wire_bytes :
    data "Hello\n.World" (Conn.mk ["354 go ahead\r\n", "250 ok\r\n"] []) =
      (Except.ok (250, "ok"), Conn.mk [] ["DATA \r\n", "Hello\r\n..World", "\r\n.\r\n"]) ∧
    String.join ((data "Hello\n.World" (Conn.mk ["354 go ahead\r\n", "250 ok\r\n"] [])).2.sent.drop 1) =
      "Hello\r\n..World\r\n.\r\n" :=
  ⟨rfl, rfl⟩

/-- C3 counterexample: on the wire bytes 214-line one CRLF 214-line two
CRLF 250 done CRLF, the initial reply aggregation follows the dash
continuation markers and consumes all three lines, handing code 250 to
help, which then returns its never-assigned accumulator: the call
fails with an unbound-local error instead of returning the pair of 250
and the claimed text. -/
theorem help_aggregated_cex :
    (help (Conn.mk ["214-line one\r\n", "214-line two\r\n", "250 done\r\n"] [])).1 =
      Except.error (SnppError.unboundLocal "helpmsg") ∧
    (Except.error (SnppError.unboundLocal "helpmsg") : Except SnppError (Int × String)) ≠
      Except.ok (250, "line one\nline two") :=
  ⟨rfl, by decide⟩

/-- C3 (amended): the claimed wire bytes carry dash continuation
markers, so the initial aggregation returns code 250 with all three
bodies and help fails on its uninitialized accumulator; when each 214
arrives instead as a separate terminal reply, help keeps aggregating
replies while the code stays 214, joining each text onto the initially
empty accumulator with a newline separator (so the result starts with
a newline), and returns the first non-214 code: final code 250 with
text newline line one newline line two. -/
theorem help_behaviour :
    (help (Conn.mk ["214 line one\r\n", "214 line two\r\n", "250 done\r\n"] [])) =
      (Except.ok (250, "\nline one\nline two"), Conn.mk [] ["HELP \r\n"]) ∧
    (help (Conn.mk ["214-line one\r\n", "214-line two\r\n", "250 done\r\n"] [])).1 =
      Except.error (SnppError.unboundLocal "helpmsg") := by
  constructor
  · have h1 : docmd "HELP" "" (Conn.mk ["214 line one\r\n", "214 line two\r\n", "250 done\r\n"] []) =
        (Except.ok (214, "line one"), Conn.mk ["214 line two\r\n", "250 done\r\n"] ["HELP \r\n"]) := rfl
    unfold help
    rw [h1]
    dsimp only
    rw [if_pos rfl]
    rw [helpLoop_step "line one" "" ["214 line two\r\n", "250 done\r\n"] 214 "line two"
      ["250 done\r\n"] rfl]
    rw [helpLoop_step "line two" (joinNL ["", "line one"]) ["250 done\r\n"] 250 "done" [] rfl]
    rw [helpLoop_stop 250 "done" (joinNL [joinNL ["", "line one"], "line two"]) [] (by norm_num)]
    rfl
  · rfl

/-- C8 counterexample: a send on an open socket that fails with a
socket-level error raises SNPPServerDisconnected at once, with zero
connect attempts, not the one reconnect attempt the claim states. -/
theorem send_open_socket_cex :
    sendRaw "x" (SendSocket.mk "example.org" 444 true true false (some (220, "ok")) [] []) =
      (Except.error (SnppError.serverDisconnected "Server not connected"),
        SendSocket.mk "example.org" 444 true true false (some (220, "ok")) [] []) ∧
    (sendRaw "x" (SendSocket.mk "example.org" 444 true true false (some (220, "ok")) [] [])).2.connectAttempts.length = 0 ∧
    (0 : Nat) ≠ 1 :=
  ⟨rfl, rfl, by decide⟩

/-- Evaluation of sendRaw with no open socket, by the outcome of the
connect attempt: a socket-level connect failure. -/
theorem sendRaw_closed_sockfail (s : String) (st st1 : SendSocket)
    (hclosed : st.sockOpen = false)
    (hcm : connectModel st = (Except.error PyExc.socketError, st1)) :
    sendRaw s st = (Except.error (SnppError.serverDisconnected "Problems with socket"), st1) := by
  unfold sendRaw
  rw [if_neg (by rw [hclosed]; simp), hcm]

/-- Evaluation of sendRaw with no open socket: an SNPP-family error
from the connect attempt propagates uncaught. -/
theorem sendRaw_closed_snpp (s : String) (st st1 : SendSocket) (e : SnppError)
    (hclosed : st.sockOpen = false)
    (hcm : connectModel st = (Except.error (PyExc.snpp e), st1)) :
    sendRaw s st = (Except.error e, st1) := by
  unfold sendRaw
  rw [if_neg (by rw [hclosed]; simp), hcm]

/-- Evaluation of sendRaw with no open socket: connect succeeded, the
outcome is that of the following send. -/
theorem sendRaw_closed_ok (s : String) (st st1 : SendSocket)
    (hclosed : st.sockOpen = false)
    (hcm : connectModel st = (Except.ok (), st1)) :
    sendRaw s st =
      if st.sendFails = true then
        (Except.error (SnppError.serverDisconnected "Problems with socket"), st1)
      else (Except.ok (), { st1 with written := st1.written ++ [s] }) := by
  unfold sendRaw
  rw [if_neg (by rw [hclosed]; simp), hcm]

/-- Evaluation of the connect attempt: socket-level failure. -/
theorem connectModel_sockfail (st : SendSocket) (hcf : st.connectFails = true) :
    connectModel st = (Except.error PyExc.socketError,
      { st with connectAttempts := st.connectAttempts ++ [(st.host, st.port)] }) := by
  unfold connectModel
  rw [if_pos hcf]

/-- Evaluation of the connect attempt: connection made, greeting read,
by the greeting oracle. -/
theorem connectModel_greeting (st : SendSocket) (hcf : st.connectFails = false) :
    connectModel st =
      ((match st.greeting with
        | none => Except.error (PyExc.snpp (SnppError.serverDisconnected "Connection unexpectedly closed"))
        | some (gcode, gmsg) =>
          if gcode ≠ 220 then Except.error (PyExc.snpp (SnppError.connectError gcode gmsg))
          else Except.ok ()),
       { st with connectAttempts := st.connectAttempts ++ [(st.host, st.port)], sockOpen := true }) := by
  unfold connectModel
  rw [if_neg (by rw [hcf]; simp)]
  cases st.greeting with
  | none => rfl
  | some p =>
    obtain ⟨gcode, gmsg⟩ := p
    dsimp only
    by_cases hgc : gcode ≠ 220
    · rw [if_pos hgc, if_pos hgc]
    · rw [if_neg hgc, if_neg hgc]

/-- C8 (amended): a write on an open socket that fails at the socket
layer raises SNPPServerDisconnected immediately and makes no reconnect
attempt; a write with no open socket makes exactly one connect attempt
with the stored host and port before writing, and a socket-layer
failure of that reconnect, or of the write after it, raises
SNPPServerDisconnected. -/
theorem send_reconnect_behaviour :
    (∀ (s : String) (st : SendSocket), st.sockOpen = true → st.sendFails = true →
      sendRaw s st = (Except.error (SnppError.serverDisconnected "Server not connected"), st)) ∧
    (∀ (s : String) (st : SendSocket), st.sockOpen = false →
      (sendRaw s st).2.connectAttempts = st.connectAttempts ++ [(st.host, st.port)] ∧
      (st.connectFails = true →
        sendRaw s st = (Except.error (SnppError.serverDisconnected "Problems with socket"),
          { st with connectAttempts := st.connectAttempts ++ [(st.host, st.port)] })) ∧
      (st.connectFails = false → st.sendFails = true → ∀ gm : String, st.greeting = some (220, gm) →
        (sendRaw s st).1 = Except.error (SnppError.serverDisconnected "Problems with socket"))) := by
  constructor
  · intro s st hopen hfail
    unfold sendRaw
    rw [if_pos hopen, if_pos hfail]
  · intro s st hclosed
    by_cases hcf : st.connectFails = true
    · have hsr := sendRaw_closed_sockfail s st _ hclosed (connectModel_sockfail st hcf)
      refine ⟨by rw [hsr], fun _ => hsr, fun hc _ _ _ => by rw [hcf] at hc; exact absurd hc (by simp)⟩
    · have hcf2 : st.connectFails = false := by
        cases hx : st.connectFails
        · rfl
        · exact absurd hx hcf
      have hcm := connectModel_greeting st hcf2
      cases hg : st.greeting with
      | none =>
        rw [hg] at hcm
        have hsr := sendRaw_closed_snpp s st _ _ hclosed hcm
        exact ⟨by rw [hsr], fun hc => absurd hc hcf,
          fun _ _ gm hgm => absurd hgm (by simp)⟩
      | some p =>
        obtain ⟨gcode, gmsg⟩ := p
        rw [hg] at hcm
        dsimp only at hcm
        by_cases hgc : gcode ≠ 220
        · rw [if_pos hgc] at hcm
          have hsr := sendRaw_closed_snpp s st _ _ hclosed hcm
          refine ⟨by rw [hsr], fun hc => absurd hc hcf, fun _ _ gm hgm => ?_⟩
          have : gcode = 220 := by
            have := Option.some.inj hgm
            exact congrArg Prod.fst this
          exact absurd this hgc
        · rw [if_neg hgc] at hcm
          have hsr := sendRaw_closed_ok s st _ hclosed hcm
          by_cases hsf : st.sendFails = true
          · rw [if_pos hsf] at hsr
            exact ⟨by rw [hsr], fun hc => absurd hc hcf, fun _ _ _ _ => by rw [hsr]⟩
          · rw [if_neg hsf] at hsr
            exact ⟨by rw [hsr], fun hc => absurd hc hcf, fun _ hc _ _ => absurd hc hsf⟩

theorem send_reconnect_behaviour_witness :
    sendRaw "x" (SendSocket.mk "h" 444 true true false none [] []) =
      (Except.error (SnppError.serverDisconnected "Server not connected"),
        SendSocket.mk "h" 444 true true false none [] []) ∧
    (sendRaw "x" (SendSocket.mk "h" 444 false false true none [] [])).2.connectAttempts =
      [("h", 444)] ∧
    (sendRaw "x" (SendSocket.mk "h" 444 false true false (some (220, "ready")) [] [])).1 =
      Except.error (SnppError.serverDisconnected "Problems with socket") := by
  refine ⟨send_reconnect_behaviour.1 "x" _ rfl rfl, ?_, ?_⟩
  · exact (send_reconnect_behaviour.2 "x" (SendSocket.mk "h" 444 false false true none [] []) rfl).1
  · exact (send_reconnect_behaviour.2 "x"
      (SendSocket.mk "h" 444 false true false (some (220, "ready")) [] []) rfl).2.2 rfl rfl "ready" rfl
